import Mathlib

/-!
# Verification of the melkior node-status service core

Shallow embedding of the Go sources of the melkior repository:

* `internal/redisstore` (`Store`): persistence of node records, secondary
  indexes, and the append-only event stream on top of a Redis-style typed
  key/value store (`CreateNode`, `UpdateNode`, `UpdateStatus`, `DeleteNode`,
  `GetNode`, `ListNodes`, `GetEventStream`, `saveNode`, `deleteIndexes`,
  `appendEvent`, `getChangedFields`, `nodeFromHash`);
* `internal/events` (`Broker`): in-process fan-out with per-subscriber
  bounded channels (`Subscribe`, `Unsubscribe`, `Publish`);
* `internal/auth`: the unary/stream auth interceptors and `validateToken`;
* `internal/service` (`NodeService`): request validation, Store dispatch,
  broker publication, and the `WatchEvents` log-tail bridge.

Redis is modelled as a typed key/value map: each key holds a typed value
(string, set, sorted set, node hash, or stream), and commands observe
Redis's type discipline (`SMEMBERS` of a non-set key is a WRONGTYPE error,
`ZINTERSTORE` stores a sorted set, `SREM` removes empty sets, `XADD`
assigns strictly increasing stream ids, `XREAD` with cursor `$` starts at
the current tail).  Wall-clock times, generated UUIDs and the nanosecond
tag of the temporary intersection key are passed as explicit parameters.
-/

namespace Melkior

/-- Proto enum `node.v1.NodeType` (zero value is the unspecified sentinel). -/
inductive NodeType
  | unspecified
  | baremetal
  | vm
  | container
deriving DecidableEq, Repr

/-- Proto enum `node.v1.NodeStatus` (zero value is the unspecified sentinel,
distinct from `UNKNOWN`). -/
inductive NodeStatus
  | unspecified
  | unknown
  | up
  | down
  | degraded
deriving DecidableEq, Repr

/-- Proto enum `node.v1.EventType`. -/
inductive EventType
  | created
  | updated
  | deleted
deriving DecidableEq, Repr

/-- Go `NodeType.String()` of the generated Go enum. -/
def NodeType.goString : NodeType → String
  | .unspecified => "NODE_TYPE_UNSPECIFIED"
  | .baremetal => "BAREMETAL"
  | .vm => "VM"
  | .container => "CONTAINER"

/-- Proto message `node.v1.Node`.  `lastSeen = none` models a nil
`*timestamppb.Timestamp`; timestamps are abstracted to naturals.  Labels are
an association list standing for the Go `map[string]string` (the code only
ever compares their JSON serializations for equality). -/
structure Node where
  id : String
  type : NodeType
  name : String
  status : NodeStatus
  labels : List (String × String)
  metadataJson : String
  lastSeen : Option Nat
deriving DecidableEq, Repr

/-- The field set written by `saveNode` into the Redis hash `node:{id}`
(`HSet` of id, type, name, status, last_seen, labels_json, metadata_json).
A nil `LastSeen` serializes as the epoch (`AsTime` on nil), hence `getD 0`. -/
structure NodeHash where
  id : String
  type : NodeType
  name : String
  status : NodeStatus
  lastSeen : Nat
  labelsJson : List (String × String)
  metadataJson : String
deriving DecidableEq, Repr

/-- The hash written for a node by `saveNode`. -/
def Node.toHash (n : Node) : NodeHash :=
  { id := n.id, type := n.type, name := n.name, status := n.status,
    lastSeen := n.lastSeen.getD 0, labelsJson := n.labels,
    metadataJson := n.metadataJson }

/-- Go `Store.nodeFromHash`: reconstructs a `Node` from the stored hash.  The
stored `last_seen` string is never empty, so the timestamp always parses. -/
def nodeFromHash (h : NodeHash) : Node :=
  { id := h.id, type := h.type, name := h.name, status := h.status,
    labels := h.labelsJson, metadataJson := h.metadataJson,
    lastSeen := some h.lastSeen }

/-- One entry of the `nodes:events` Redis stream, as written by
`Store.appendEvent` and parsed back by `eventFromStreamMessage`; `id` is the
stream id (modelled as a strictly increasing natural). -/
structure StoreEvent where
  id : Nat
  eventType : EventType
  nodeId : String
  changedFields : List String
  ts : Nat
deriving DecidableEq, Repr

/-- The Redis keys the store touches, structured instead of formatted
(`node:{id}`, `node:byname:{type}:{name}`, `nodes:all`, `nodes:type:{t}`,
`nodes:status:{s}`, the `temp:list:{nanos}` intersection key, and the
`nodes:events` stream). -/
inductive RKey
  | node (id : String)
  | byname (t : NodeType) (name : String)
  | all
  | typ (t : NodeType)
  | status (s : NodeStatus)
  | temp (nanos : Nat)
  | eventsStream
deriving DecidableEq, Repr

/-- A typed Redis value: string, set, sorted set, node hash, or stream. -/
inductive RValue
  | str (s : String)
  | set (members : List String)
  | zset (members : List String)
  | hash (h : NodeHash)
  | stream (entries : List StoreEvent)
deriving DecidableEq, Repr

/-- The Redis database: a typed value per key, `none` when absent. -/
def RDB := RKey → Option RValue

/-- The empty database. -/
def dbEmpty : RDB := fun _ => none

/-- Point update of the database (`none` deletes the key). -/
def setk (db : RDB) (k : RKey) (v : Option RValue) : RDB :=
  fun k' => if k' = k then v else db k'

theorem setk_same (db : RDB) (k : RKey) (v : Option RValue) :
    setk db k v k = v := by simp [setk]

theorem setk_other (db : RDB) (k k' : RKey) (v : Option RValue) (h : k' ≠ k) :
    setk db k v k' = db k' := by simp [setk, h]

/-- View a value as a set, as Redis set commands do: a missing key is the
empty set, a set is itself, anything else is a WRONGTYPE. -/
def asSet : Option RValue → Option (List String)
  | none => some []
  | some (.set l) => some l
  | some _ => none

/-- View a value as `ZINTERSTORE` input: sets and sorted sets are allowed
(set members count with score 1), a missing key is empty. -/
def asZInput : Option RValue → Option (List String)
  | none => some []
  | some (.set l) => some l
  | some (.zset l) => some l
  | some _ => none

/-- View a value as a stream (for `XADD`/`XREAD`). -/
def asStream : Option RValue → Option (List StoreEvent)
  | none => some []
  | some (.stream l) => some l
  | some _ => none

/-- Members of a set key, defaulting to empty (read-only convenience used to
state index membership). -/
def sMembersD (db : RDB) (k : RKey) : List String :=
  (asSet (db k)).getD []

/-- Redis errors that the model distinguishes. -/
inductive RErr
  | wrongtype
deriving DecidableEq, Repr

/-- The Redis commands issued inside the store's pipelines. -/
inductive Cmd
  | setStr (k : RKey) (v : String)
  | del (k : RKey)
  | sadd (k : RKey) (m : String)
  | srem (k : RKey) (m : String)
  | hset (k : RKey) (h : NodeHash)
deriving DecidableEq, Repr

/-- Set insertion (Redis sets are member-unique; order models the
unspecified enumeration order). -/
def addMem (m : String) (l : List String) : List String :=
  if m ∈ l then l else l ++ [m]

/-- Apply one pipelined command.  A command that hits a WRONGTYPE leaves its
key unchanged and reports the error; `SREM` that empties a set deletes the
key, as Redis does. -/
def applyCmd (db : RDB) : Cmd → RDB × Option RErr
  | .setStr k v => (setk db k (some (.str v)), none)
  | .del k => (setk db k none, none)
  | .sadd k m =>
    match asSet (db k) with
    | some l => (setk db k (some (.set (addMem m l))), none)
    | none => (db, some .wrongtype)
  | .srem k m =>
    match asSet (db k) with
    | some l =>
      let l' := l.erase m
      (setk db k (if l' = [] then none else some (.set l')), none)
    | none => (db, some .wrongtype)
  | .hset k h =>
    match db k with
    | none => (setk db k (some (.hash h)), none)
    | some (.hash _) => (setk db k (some (.hash h)), none)
    | some _ => (db, some .wrongtype)

/-- Run a pipeline: every command executes (Redis pipelines do not abort on
error); `Exec` reports the first error. -/
def runPipe (db : RDB) : List Cmd → RDB × Option RErr
  | [] => (db, none)
  | c :: cs =>
    let r := applyCmd db c
    let rest := runPipe r.1 cs
    (rest.1, r.2 <|> rest.2)

/-- Redis `GET`: a string value, `none` for a missing key or a WRONGTYPE (both
surface as a non-nil error in go-redis, which `CreateNode` treats alike). -/
def getStr (db : RDB) (k : RKey) : Option String :=
  match db k with
  | some (.str s) => some s
  | _ => none

/-- Redis `SMEMBERS`: empty for a missing key, WRONGTYPE for a non-set value. -/
def smembers (db : RDB) (k : RKey) : Except RErr (List String) :=
  match db k with
  | none => .ok []
  | some (.set l) => .ok l
  | some _ => .error .wrongtype

/-- Stream id following the current entries (`XADD` auto id: strictly
greater than every existing id; entries are appended in id order). -/
def nextStreamId (entries : List StoreEvent) : Nat :=
  (entries.foldl (fun a e => Nat.max a e.id) 0) + 1

/-- Largest existing stream id (what the `$` cursor resolves to). -/
def lastStreamId (entries : List StoreEvent) : Nat :=
  entries.foldl (fun a e => Nat.max a e.id) 0

/-- Redis `XADD nodes:events` with an auto-assigned id. -/
def xadd (db : RDB) (et : EventType) (nodeId : String)
    (changedFields : List String) (ts : Nat) : RDB × Option RErr :=
  match asStream (db .eventsStream) with
  | some entries =>
    let e : StoreEvent :=
      { id := nextStreamId entries, eventType := et, nodeId := nodeId,
        changedFields := changedFields, ts := ts }
    (setk db .eventsStream (some (.stream (entries ++ [e]))), none)
  | none => (db, some .wrongtype)

/-- Redis `ZINTERSTORE dest 2 k1 k2` over set/zset inputs; an empty intersection
deletes the destination key, a nonempty one stores a sorted set there. -/
def zinterstore (db : RDB) (dest k1 k2 : RKey) : RDB × Option RErr :=
  match asZInput (db k1), asZInput (db k2) with
  | some l1, some l2 =>
    let inter := l1.filter (fun m => m ∈ l2)
    (setk db dest (if inter = [] then none else some (.zset inter)), none)
  | _, _ => (db, some .wrongtype)

deriving instance DecidableEq for Except

/-- Errors returned by the store's methods, keeping the Go error messages'
content. -/
inductive StoreErr
  | alreadyExists (name : String) (typeStr : String)
  | notFound
  | failed (what : String)
deriving DecidableEq, Repr

/-- The message `err.Error()` for a store error. -/
def StoreErr.msg : StoreErr → String
  | .alreadyExists n t => "node with name " ++ n ++ " of type " ++ t ++ " already exists"
  | .notFound => "node not found"
  | .failed w => w

namespace Store

/-- Go `Store.GetNode`: `HGETALL node:{id}`; an empty result (missing key) is
"node not found", a non-hash value is a wrapped Redis error. -/
def GetNode (db : RDB) (id : String) : Except StoreErr Node :=
  match db (.node id) with
  | some (.hash h) => .ok (nodeFromHash h)
  | none => .error .notFound
  | some _ => .error (.failed "failed to get node")

/-- Go `Store.saveNode`: one pipeline writing the record hash, the
`(type, name)` uniqueness key, and the three index memberships. -/
def saveNode (db : RDB) (n : Node) : RDB × Option RErr :=
  runPipe db
    [ .hset (.node n.id) n.toHash,
      .setStr (.byname n.type n.name) n.id,
      .sadd .all n.id,
      .sadd (.typ n.type) n.id,
      .sadd (.status n.status) n.id ]

/-- Go `Store.deleteIndexes`: one pipeline deleting the `(type, name)` key and
the type/status set memberships of the node as passed in. -/
def deleteIndexes (db : RDB) (n : Node) : RDB × Option RErr :=
  runPipe db
    [ .del (.byname n.type n.name),
      .srem (.typ n.type) n.id,
      .srem (.status n.status) n.id ]

/-- Go `Store.appendEvent`: `XADD` onto `nodes:events`. -/
def appendEvent (db : RDB) (et : EventType) (nodeId : String)
    (changedFields : List String) (ts : Nat) : RDB × Option RErr :=
  xadd db et nodeId changedFields ts

/-- Go `Store.getChangedFields`: compares name, type, status, the JSON
serializations of the labels, and the opaque metadata string. -/
def getChangedFields (old new : Node) : List String :=
  let f0 : List String := []
  let f1 := if old.name ≠ new.name then f0 ++ ["name"] else f0
  let f2 := if old.type ≠ new.type then f1 ++ ["type"] else f1
  let f3 := if old.status ≠ new.status then f2 ++ ["status"] else f2
  let f4 := if old.labels ≠ new.labels then f3 ++ ["labels"] else f3
  if old.metadataJson ≠ new.metadataJson then f4 ++ ["metadata_json"] else f4

/-- Go `Store.CreateNode`: defaults the id (from the supplied fresh UUID) and
`last_seen` (from `now`), rejects when the `(type, name)` uniqueness key
holds a nonempty id, then saves the record and appends a CREATED event.
There is no defaulting of the status. -/
def CreateNode (db : RDB) (n : Node) (freshId : String) (now : Nat) :
    Except StoreErr Node × RDB :=
  let n1 := { n with id := if n.id = "" then freshId else n.id }
  let n2 := { n1 with lastSeen := if n1.lastSeen = none then some now else n1.lastSeen }
  if (getStr db (.byname n2.type n2.name)).getD "" ≠ "" then
    (.error (.alreadyExists n2.name n2.type.goString), db)
  else
    match saveNode db n2 with
    | (db1, some _) => (.error (.failed "failed to save node"), db1)
    | (db1, none) =>
      match appendEvent db1 .created n2.id [] now with
      | (db2, some _) => (.error (.failed "failed to append event"), db2)
      | (db2, none) => (.ok n2, db2)

/-- Go `Store.UpdateNode`: reads the old record, computes the changed fields,
deletes the OLD indexes, saves the new record (stamping `last_seen`), and
appends an UPDATED event.  There is no `(type, name)` uniqueness check. -/
def UpdateNode (db : RDB) (n : Node) (now : Nat) :
    Except StoreErr Node × RDB :=
  match GetNode db n.id with
  | .error e => (.error e, db)
  | .ok oldNode =>
    let n1 := { n with lastSeen := some now }
    let changed := getChangedFields oldNode n1
    match deleteIndexes db oldNode with
    | (db1, some _) => (.error (.failed "failed to delete indexes"), db1)
    | (db1, none) =>
      match saveNode db1 n1 with
      | (db2, some _) => (.error (.failed "failed to save node"), db2)
      | (db2, none) =>
        match appendEvent db2 .updated n1.id changed now with
        | (db3, some _) => (.error (.failed "failed to append event"), db3)
        | (db3, none) => (.ok n1, db3)

/-- Go `Store.UpdateStatus`:  the Go code assigns `node.Status = status`
*before* calling `deleteIndexes(node)`, so when the status changes the
indexes deleted are those of the NEW status (the old status-set membership
is left behind).  When the status is unchanged nothing is written: the
`last_seen` bump exists only on the returned node. -/
def UpdateStatus (db : RDB) (id : String) (status : NodeStatus) (now : Nat) :
    Except StoreErr Node × RDB :=
  match GetNode db id with
  | .error e => (.error e, db)
  | .ok node =>
    let oldStatus := node.status
    let node1 := { node with status := status, lastSeen := some now }
    if oldStatus ≠ status then
      match deleteIndexes db node1 with
      | (db1, some _) => (.error (.failed "failed to delete indexes"), db1)
      | (db1, none) =>
        match saveNode db1 node1 with
        | (db2, some _) => (.error (.failed "failed to save node"), db2)
        | (db2, none) =>
          match appendEvent db2 .updated node1.id ["status"] now with
          | (db3, some _) => (.error (.failed "failed to append event"), db3)
          | (db3, none) => (.ok node1, db3)
    else
      (.ok node1, db)

/-- Go `Store.DeleteNode`: reads the record, deletes its indexes, deletes the
primary record and the "all" membership, and appends a DELETED event. -/
def DeleteNode (db : RDB) (id : String) (now : Nat) :
    Except StoreErr Unit × RDB :=
  match GetNode db id with
  | .error e => (.error e, db)
  | .ok node =>
    match deleteIndexes db node with
    | (db1, some _) => (.error (.failed "failed to delete indexes"), db1)
    | (db1, none) =>
      match runPipe db1 [.del (.node id), .srem .all id] with
      | (db2, some _) => (.error (.failed "failed to delete node"), db2)
      | (db2, none) =>
        match appendEvent db2 .deleted node.id [] now with
        | (db3, some _) => (.error (.failed "failed to append event"), db3)
        | (db3, none) => (.ok (), db3)

/-- The offset/limit window `ListNodes` applies to the member list
(`end > len || limit == 0` clamps to the end; `start >= len` is empty). -/
def pageWindow (members : List String) (offset limit : Nat) : List String :=
  let endIdx := if offset + limit > members.length ∨ limit = 0 then members.length
    else offset + limit
  if offset ≥ members.length then []
  else (members.drop offset).take (endIdx - offset)

/-- Go `Store.ListNodes`.  With both filters set it runs `ZINTERSTORE` of the
two index sets into a fresh `temp:list:{nanos}` key and then `SMEMBERS` of
that key (a sorted set!), deleting the temp key on return; with one filter
it reads that index set; with none, `nodes:all`.  Ids whose record fails to
load are skipped. -/
def ListNodes (db : RDB) (typeFilter : NodeType) (statusFilter : NodeStatus)
    (offset limit : Nat) (nanos : Nat) : Except StoreErr (List Node) × RDB :=
  if typeFilter ≠ .unspecified ∧ statusFilter ≠ .unspecified then
    let dest : RKey := .temp nanos
    match zinterstore db dest (.typ typeFilter) (.status statusFilter) with
    | (_, some _) => (.error (.failed "failed to intersect sets"), db)
    | (db1, none) =>
      match smembers db1 dest with
      | .error _ => (.error (.failed "failed to list nodes"), setk db1 dest none)
      | .ok members =>
        let slice := pageWindow members offset limit
        let nodes := slice.filterMap (fun i => (GetNode db1 i).toOption)
        (.ok nodes, setk db1 dest none)
  else
    let setKey : RKey :=
      if typeFilter ≠ .unspecified then .typ typeFilter
      else if statusFilter ≠ .unspecified then .status statusFilter
      else .all
    match smembers db setKey with
    | .error _ => (.error (.failed "failed to list nodes"), db)
    | .ok members =>
      let slice := pageWindow members offset limit
      let nodes := slice.filterMap (fun i => (GetNode db i).toOption)
      (.ok nodes, db)

/-- The `lastID` cursor of `GetEventStream`: the empty string, `"$"`, or a
concrete stream id. -/
inductive LastID
  | empty
  | dollar
  | seq (n : Nat)
deriving DecidableEq, Repr

/-- Resolve a cursor against the current entries: `""` is mapped to `"$"`
by `GetEventStream`, and `$` denotes the current tail id. -/
def resolveLastID (entries : List StoreEvent) : LastID → Nat
  | .seq n => n
  | .empty => lastStreamId entries
  | .dollar => lastStreamId entries

/-- Go `Store.GetEventStream`: `XREAD COUNT 100 BLOCK 0 STREAMS nodes:events
{lastID}` — the entries with id strictly greater than the cursor, at most
100.  A read that would block (no qualifying entries yet) is modelled as
returning the empty list. -/
def GetEventStream (db : RDB) (lastID : LastID) : Except StoreErr (List StoreEvent) :=
  match asStream (db .eventsStream) with
  | some entries =>
    let cur := resolveLastID entries lastID
    .ok ((entries.filter (fun e => cur < e.id)).take 100)
  | none => .error (.failed "failed to read stream")

end Store

/-- Proto message `node.v1.WatchEventsResponse` (the broker's event type). -/
structure WResp where
  eventType : EventType
  node : Node
  changedFields : List String
deriving DecidableEq, Repr

/-- One buffered channel (`chan *WatchEventsResponse` of capacity 100). -/
structure Chan where
  buf : List WResp
  closed : Bool
deriving DecidableEq, Repr

/-- The broker: a heap of channels (Go channels are references, so a
replaced subscriber's channel outlives its map entry), an allocation
counter, and the id-keyed subscription map. -/
structure Broker where
  chans : List (Nat × Chan)
  nextCh : Nat
  subs : List (String × Nat)
deriving DecidableEq, Repr

/-- Go `NewBroker()`. -/
def Broker.new : Broker := { chans := [], nextCh := 0, subs := [] }

/-- Association-list overwrite for the subscription map. -/
def mapPut (l : List (String × Nat)) (k : String) (v : Nat) : List (String × Nat) :=
  if l.any (fun p => p.1 = k) then
    l.map (fun p => if p.1 = k then (k, v) else p)
  else l ++ [(k, v)]

/-- Lookup in the subscription map. -/
def mapGet (l : List (String × Nat)) (k : String) : Option Nat :=
  (l.find? (fun p => p.1 = k)).map Prod.snd

/-- Lookup a channel in the heap. -/
def Broker.chan (b : Broker) (p : Nat) : Option Chan :=
  (b.chans.find? (fun q => q.1 = p)).map Prod.snd

/-- Go `Broker.Subscribe`: allocates a fresh channel and stores the handle in
the map, OVERWRITING any prior entry for the id.  The prior channel is not
closed and not touched; it merely becomes unreachable from the map. -/
def Broker.subscribe (b : Broker) (id : String) : Nat × Broker :=
  let p := b.nextCh
  (p, { chans := b.chans ++ [(p, { buf := [], closed := false })],
        nextCh := p + 1,
        subs := mapPut b.subs id p })

/-- Go `Broker.Unsubscribe`: closes the mapped channel (if any) and removes
the map entry. -/
def Broker.unsubscribe (b : Broker) (id : String) : Broker :=
  match mapGet b.subs id with
  | none => b
  | some p =>
    { b with
      chans := b.chans.map (fun q => if q.1 = p then (q.1, { q.2 with closed := true }) else q),
      subs := b.subs.filter (fun q => q.1 ≠ id) }

/-- Non-blocking send on one channel: enqueue when there is room, drop when
the buffer is full (the `select`/`default` in `Publish`).  Channels mapped
by the broker are never closed while mapped, so the closed case (a Go
panic) never fires; it is modelled as a drop. -/
def chanSend (chans : List (Nat × Chan)) (p : Nat) (ev : WResp) : List (Nat × Chan) :=
  chans.map (fun q =>
    if q.1 = p then
      (q.1, if q.2.closed ∨ q.2.buf.length ≥ 100 then q.2 else { q.2 with buf := q.2.buf ++ [ev] })
    else q)

/-- Go `Broker.Publish`: non-blocking enqueue on every subscription. -/
def Broker.publish (b : Broker) (ev : WResp) : Broker :=
  { b with chans := b.subs.foldl (fun cs s => chanSend cs s.2 ev) b.chans }

/-- gRPC status codes surfaced by the service and the auth gate. -/
inductive Code
  | invalidArgument
  | notFound
  | alreadyExists
  | internal
  | unauthenticated
  | permissionDenied
deriving DecidableEq, Repr

/-- A gRPC status error: code plus message. -/
def GErr := Code × String
deriving DecidableEq, Repr

/-- Go `strings.HasPrefix` on the underlying character sequences. -/
def hasPfx (s pre : String) : Bool :=
  pre.data.isPrefixOf s.data

/-- Go `strings.TrimPrefix`. -/
def trimPfx (s pre : String) : String :=
  if hasPfx s pre then { data := s.data.drop pre.data.length } else s

/-- Incoming request metadata: `none` models a context with no gRPC
metadata; otherwise a multimap from header names to value lists. -/
def MD := List (String × List String)

/-- Go `md.Get(key)`: the value list for a header (normalized keys). -/
def mdGet (md : MD) (key : String) : List String :=
  ((md.find? (fun p => p.1 = key)).map Prod.snd).getD []

/-- The `mutatingMethods` map of `internal/auth`. -/
def mutatingMethods : List String :=
  [ "/node.v1.NodeService/CreateNode",
    "/node.v1.NodeService/UpdateNode",
    "/node.v1.NodeService/UpdateStatus",
    "/node.v1.NodeService/DeleteNode" ]

/-- Go `auth.validateToken`: `none` means the request may proceed. -/
def validateToken (md : Option MD) (expectedToken : String) : Option GErr :=
  match md with
  | none => some (.unauthenticated, "missing metadata")
  | some m =>
    match mdGet m "authorization" with
    | [] => some (.unauthenticated, "missing authorization header")
    | authHeader :: _ =>
      if ¬ hasPfx authHeader "Bearer " then
        some (.unauthenticated, "invalid authorization header format")
      else
        let token := trimPfx authHeader "Bearer "
        if token ≠ expectedToken then some (.permissionDenied, "invalid token")
        else none

/-- Go `auth.UnaryAuthInterceptor`: non-mutating methods invoke the handler
directly; mutating ones pass through `validateToken` first.  The handler
receives the context metadata and request unchanged. -/
def UnaryAuthInterceptor {Req Res : Type} (adminToken : String) (method : String)
    (md : Option MD) (req : Req) (handler : Option MD → Req → Res) : Except GErr Res :=
  if method ∈ mutatingMethods then
    match validateToken md adminToken with
    | some e => .error e
    | none => .ok (handler md req)
  else .ok (handler md req)

/-- Go `auth.StreamAuthInterceptor`: same gate for streaming methods. -/
def StreamAuthInterceptor {Res : Type} (adminToken : String) (method : String)
    (md : Option MD) (handler : Option MD → Res) : Except GErr Res :=
  if method ∈ mutatingMethods then
    match validateToken md adminToken with
    | some e => .error e
    | none => .ok (handler md)
  else .ok (handler md)

namespace NodeService

/-- Go `NodeService.CreateNode`: validates the request, dispatches to the
store (mapping EVERY store error, including the uniqueness collision, to
`codes.Internal` with the store error's message), and on success publishes
a CREATED event to the broker. -/
def CreateNode (db : RDB) (bk : Broker) (reqNode : Option Node)
    (freshId : String) (now : Nat) : Except GErr Node × RDB × Broker :=
  match reqNode with
  | none => (.error (.invalidArgument, "node is required"), db, bk)
  | some n =>
    if n.name = "" then (.error (.invalidArgument, "node name is required"), db, bk)
    else if n.type = .unspecified then
      (.error (.invalidArgument, "node type is required"), db, bk)
    else
      match Store.CreateNode db n freshId now with
      | (.error e, db') => (.error (.internal, e.msg), db', bk)
      | (.ok node, db') =>
        (.ok node, db', bk.publish { eventType := .created, node := node, changedFields := [] })

/-- Go `NodeService.UpdateNode`: validation, store dispatch (all store errors
become `codes.Internal`), then a broker publish of an UPDATED event
(without changed fields — the live message does not carry them). -/
def UpdateNode (db : RDB) (bk : Broker) (reqNode : Option Node) (now : Nat) :
    Except GErr Node × RDB × Broker :=
  match reqNode with
  | none => (.error (.invalidArgument, "node is required"), db, bk)
  | some n =>
    if n.id = "" then (.error (.invalidArgument, "node id is required"), db, bk)
    else
      match Store.UpdateNode db n now with
      | (.error e, db') => (.error (.internal, e.msg), db', bk)
      | (.ok node, db') =>
        (.ok node, db', bk.publish { eventType := .updated, node := node, changedFields := [] })

/-- Go `NodeService.UpdateStatus`: validation, store dispatch (all store
errors become `codes.Internal`), then an UNCONDITIONAL broker publish of an
UPDATED event with `changed_fields = ["status"]` — also when the store
short-circuited an idempotent status write. -/
def UpdateStatus (db : RDB) (bk : Broker) (id : String) (status : NodeStatus)
    (now : Nat) : Except GErr Node × RDB × Broker :=
  if id = "" then (.error (.invalidArgument, "node id is required"), db, bk)
  else if status = .unspecified then
    (.error (.invalidArgument, "status is required"), db, bk)
  else
    match Store.UpdateStatus db id status now with
    | (.error e, db') => (.error (.internal, e.msg), db', bk)
    | (.ok node, db') =>
      (.ok node, db',
        bk.publish { eventType := .updated, node := node, changedFields := ["status"] })

/-- Go `NodeService.DeleteNode`: validation, a pre-read of the record (whose
failure surfaces as NOT_FOUND), store deletion, then a broker publish of a
DELETED event carrying the pre-deletion snapshot. -/
def DeleteNode (db : RDB) (bk : Broker) (id : String) (now : Nat) :
    Except GErr String × RDB × Broker :=
  if id = "" then (.error (.invalidArgument, "node id is required"), db, bk)
  else
    match Store.GetNode db id with
    | .error _ => (.error (.notFound, "node not found"), db, bk)
    | .ok node =>
      match Store.DeleteNode db id now with
      | (.error e, db') => (.error (.internal, e.msg), db', bk)
      | (.ok _, db') =>
        (.ok id, db', bk.publish { eventType := .deleted, node := node, changedFields := [] })

/-- Go `NodeService.GetNode`. -/
def GetNode (db : RDB) (id : String) : Except GErr Node :=
  if id = "" then .error (.invalidArgument, "node id is required")
  else
    match Store.GetNode db id with
    | .error _ => .error (.notFound, "node not found")
    | .ok node => .ok node

/-- The initial log-tail cursor of `NodeService.WatchEvents`:
`lastID := "0"` — the beginning of the stream, not `"$"`. -/
def watchInitialLastID : Store.LastID := .seq 0

/-- The body of the per-event loop in `WatchEvents`' polling goroutine:
re-fetch the node (for every event kind), publish the mirror only when the
fetch succeeded, and advance the cursor to the event's id regardless. -/
def pollHandleEvent (db : RDB) (acc : Broker × Store.LastID) (ev : StoreEvent) :
    Broker × Store.LastID :=
  match Store.GetNode db ev.nodeId with
  | .ok node =>
    (acc.1.publish { eventType := ev.eventType, node := node, changedFields := ev.changedFields },
      .seq ev.id)
  | .error _ => (acc.1, .seq ev.id)

/-- One tick of `WatchEvents`' polling goroutine: read the log tail from
the cursor (a failed read leaves everything unchanged and the loop
continues), then handle each returned event in order. -/
def pollOnce (db : RDB) (bk : Broker) (lastID : Store.LastID) :
    Broker × Store.LastID :=
  match Store.GetEventStream db lastID with
  | .error _ => (bk, lastID)
  | .ok evs => evs.foldl (pollHandleEvent db) (bk, lastID)

end NodeService

/-! ## Concrete executions used by the claim theorems -/

/-- The request of scenario S1: `{type: VM, name: "web-01"}`, no id, no
status, no labels, no metadata. -/
def reqWeb01 : Node :=
  { id := "", type := .vm, name := "web-01", status := .unspecified,
    labels := [], metadataJson := "", lastSeen := none }

/-- A create request for a VM named `a` with status UP. -/
def reqUpA : Node :=
  { id := "", type := .vm, name := "a", status := .up,
    labels := [], metadataJson := "", lastSeen := none }

/-- A create request for a VM named `b` with status UP. -/
def reqUpB : Node :=
  { id := "", type := .vm, name := "b", status := .up,
    labels := [], metadataJson := "", lastSeen := none }

/-- Database after `CreateNode` of `reqUpA` (id `n1`, time 0) on an empty
store. -/
def dbA : RDB :=
  (NodeService.CreateNode dbEmpty Broker.new (some reqUpA) "n1" 0).2.1

/-- Database after additionally creating `reqUpB` (id `n2`, time 1). -/
def dbAB : RDB :=
  (NodeService.CreateNode dbA Broker.new (some reqUpB) "n2" 1).2.1

/-- A broker holding one live subscription, id `w` (channel pointer 0). -/
def bkW : Broker := (Broker.new.subscribe "w").2

/-- The record stored for `reqUpA` in `dbA`. -/
def nodeA1 : Node :=
  { id := "n1", type := .vm, name := "a", status := .up,
    labels := [], metadataJson := "", lastSeen := some 0 }

/-- Database after deleting node `n1` from `dbA` (time 3): the record is
gone, the log holds the CREATED and the DELETED events. -/
def dbDel : RDB :=
  (NodeService.DeleteNode dbA Broker.new "n1" 3).2.1

/-! ## C1 — duplicate CreateNode: the failure status -/

/-- A second `CreateNode` of `reqUpA` against `dbA` (which already holds a
VM named `a`). -/
def c1Second : Except GErr Node × RDB × Broker :=
  NodeService.CreateNode dbA Broker.new (some reqUpA) "n3" 5

/-- C1 counterexample.  The claim says a duplicate-`(type, name)`
CreateNode fails with status ALREADY_EXISTS.  At this concrete input the
call does fail — but with status INTERNAL (the service maps every store
error, including the uniqueness collision, to `codes.Internal`), not
ALREADY_EXISTS. -/
theorem C1_create_collision_not_already_exists :
    c1Second.1 = .error (.internal, "node with name a of type VM already exists") ∧
    Code.internal ≠ Code.alreadyExists := by
  decide

/-! ## C2 — UpdateStatus leaves the old status index behind -/

/-- Go `UpdateStatus` of `n1` (currently UP) to DEGRADED on `dbA`. -/
def c2Out : Except GErr Node × RDB × Broker :=
  NodeService.UpdateStatus dbA Broker.new "n1" .degraded 1

/-- C2.  Evaluating the code at the failing input: the status change
succeeds, yet afterwards `n1` is a member of BOTH `nodes:status:{UP}` and
`nodes:status:{DEGRADED}` — `Store.UpdateStatus` assigns the new status to
the node value before calling `deleteIndexes`, so the old status-set
membership is never removed, violating the exactly-one-status-index
invariant the claim states. -/
theorem C2_update_status_leaves_old_status_index :
    c2Out.1 = .ok { nodeA1 with status := .degraded, lastSeen := some 1 } ∧
    "n1" ∈ sMembersD c2Out.2.1 (.status .up) ∧
    "n1" ∈ sMembersD c2Out.2.1 (.status .degraded) := by
  decide

/-! ## C7 — ListNodes with both filters set -/

/-- C7.  Evaluating the code at the failing input: on a store holding
one VM node with status UP, `ListNodes` succeeds with a type filter alone,
a status filter alone, or no filter — but with BOTH filters set it fails:
`ZINTERSTORE` stores the (nonempty) intersection as a sorted set and the
subsequent `SMEMBERS` of that key is a WRONGTYPE error, so the call never
returns the intersection the claim describes. -/
theorem C7_both_filters_wrongtype_error :
    (Store.ListNodes dbA .vm .up 0 0 9).1 = .error (.failed "failed to list nodes") ∧
    (Store.ListNodes dbA .vm .unspecified 0 0 9).1 = .ok [nodeA1] ∧
    (Store.ListNodes dbA .unspecified .up 0 0 9).1 = .ok [nodeA1] ∧
    (Store.ListNodes dbA .unspecified .unspecified 0 0 9).1 = .ok [nodeA1] := by
  decide

/-! ## C3 — the watch cursor starts at the beginning of the log -/

/-- First poll of the `WatchEvents` log bridge over `dbA`, with watcher `w`
whose subscription (empty buffer) started only after `dbA`'s single event
was appended. -/
def c3Poll : Broker × Store.LastID :=
  NodeService.pollOnce dbA bkW NodeService.watchInitialLastID

/-- C3 counterexample.  The claim says the cursor starts at the end of
the log, so a watcher is never delivered an event appended before its
subscription.  Concretely: `dbA`'s log holds one event (id 1) appended
before `w` subscribed (its buffer is empty), and the very first poll —
which starts from `lastID = "0"`, not `"$"` — delivers exactly that
pre-subscription event to `w`. -/
theorem C3_first_poll_replays_presubscription_event :
    dbA .eventsStream = some (.stream
      [{ id := 1, eventType := .created, nodeId := "n1", changedFields := [], ts := 0 }]) ∧
    bkW.chan 0 = some { buf := [], closed := false } ∧
    c3Poll.1.chan 0 = some
      { buf := [{ eventType := .created, node := nodeA1, changedFields := [] }],
        closed := false } ∧
    c3Poll.2 = .seq 1 := by
  decide

/-! ## C4 — idempotent UpdateStatus still reaches the watchers -/

/-- Go `UpdateStatus` of `n1` to its current status UP, with watcher `w`
connected. -/
def c4Out : Except GErr Node × RDB × Broker :=
  NodeService.UpdateStatus dbA bkW "n1" .up 2

/-- C4 counterexample.  The claim says an `UpdateStatus` to the current
status delivers no new event to connected watchers.  Concretely: `n1` is
UP, the call succeeds, the durable log is indeed unchanged — but the
service publishes unconditionally after store success, so watcher `w`'s
buffer (empty before) now holds a fresh UPDATED event. -/
theorem C4_idempotent_update_status_still_publishes :
    Store.GetNode dbA "n1" = .ok nodeA1 ∧
    c4Out.1 = .ok { nodeA1 with lastSeen := some 2 } ∧
    c4Out.2.1 .eventsStream = dbA .eventsStream ∧
    bkW.chan 0 = some { buf := [], closed := false } ∧
    c4Out.2.2.chan 0 = some
      { buf := [{ eventType := .updated, node := { nodeA1 with lastSeen := some 2 },
                  changedFields := ["status"] }],
        closed := false } := by
  decide

/-! ## C5 — CreateNode does not default the status -/

/-- Scenario S1: `CreateNode {type: VM, name: "web-01"}` with no id and no
status, on an empty store. -/
def c5Out : Except GErr Node × RDB × Broker :=
  NodeService.CreateNode dbEmpty Broker.new (some reqWeb01) "I1" 5

/-- C5 counterexample.  The claim says a node created without a status
is stored with status UNKNOWN.  Concretely the call succeeds, but neither
the service nor the store defaults the status: the returned node and the
stored record both carry the unspecified sentinel, which is distinct from
UNKNOWN. -/
theorem C5_create_without_status_stores_unspecified :
    c5Out.1 = .ok { id := "I1", type := .vm, name := "web-01", status := .unspecified,
                    labels := [], metadataJson := "", lastSeen := some 5 } ∧
    c5Out.2.1 (.node "I1") = some (.hash
      { id := "I1", type := .vm, name := "web-01", status := .unspecified,
        lastSeen := 5, labelsJson := [], metadataJson := "" }) ∧
    NodeStatus.unspecified ≠ NodeStatus.unknown := by
  decide

/-! ## C8 — DELETED log events are not mirrored -/

/-- First poll of the log bridge after `n1` was deleted: the log holds the
CREATED (id 1) and DELETED (id 2) events, the record is gone. -/
def c8Poll : Broker × Store.LastID :=
  NodeService.pollOnce dbDel bkW NodeService.watchInitialLastID

/-- C8 counterexample.  The claim says every polled event — including
DELETED ones — is mirrored through the broker.  Concretely the poll
returns the DELETED event (and the CREATED one), but the engine re-fetches
the node for EVERY kind and publishes only when the fetch succeeds; the
node is gone, so nothing is published: watcher `w`'s buffer stays empty
while the cursor still advances past both events. -/
theorem C8_deleted_event_not_mirrored :
    Store.GetEventStream dbDel NodeService.watchInitialLastID = .ok
      [{ id := 1, eventType := .created, nodeId := "n1", changedFields := [], ts := 0 },
       { id := 2, eventType := .deleted, nodeId := "n1", changedFields := [], ts := 3 }] ∧
    Store.GetNode dbDel "n1" = .error .notFound ∧
    c8Poll.1.chan 0 = some { buf := [], closed := false } ∧
    c8Poll.2 = .seq 2 := by
  decide

/-! ## C9 — duplicate Subscribe does not close the prior channel -/

/-- A broker after `Subscribe("a")`. -/
def c9b1 : Broker := (Broker.new.subscribe "a").2

/-- The same broker after a second `Subscribe("a")`. -/
def c9b2 : Broker := (c9b1.subscribe "a").2

/-- C9 counterexample.  The claim says a duplicate `Subscribe(id)`
closes the prior subscription's channel.  Concretely: after the second
`Subscribe("a")`, the map points at the fresh channel 1, but the prior
channel 0 is still open (`closed = false`) — it is merely orphaned. -/
theorem C9_duplicate_subscribe_leaves_prior_channel_open :
    mapGet c9b1.subs "a" = some 0 ∧
    mapGet c9b2.subs "a" = some 1 ∧
    c9b2.chan 0 = some { buf := [], closed := false } ∧
    c9b2.chan 1 = some { buf := [], closed := false } := by
  decide

/-! ## General lemmas about the broker's subscription map -/

theorem mapGet_mapPut (l : List (String × Nat)) (k : String) (v : Nat) :
    mapGet (mapPut l k v) k = some v := by
  unfold mapPut
  by_cases hany : l.any (fun p => p.1 = k)
  · rw [if_pos hany]
    induction l with
    | nil => simp at hany
    | cons p t ih =>
      by_cases hp : p.1 = k
      · simp [mapGet, hp]
      · have ht : t.any (fun p => p.1 = k) := by
          simpa [List.any_cons, hp] using hany
        simpa [mapGet, hp] using ih ht
  · rw [if_neg hany]
    induction l with
    | nil => simp [mapGet]
    | cons p t ih =>
      have hp : ¬ p.1 = k := by
        intro h
        exact hany (by simp [List.any_cons, h])
      have ht : ¬ t.any (fun p => p.1 = k) := by
        intro h
        exact hany (by simp [List.any_cons, h])
      simpa [mapGet, hp] using ih ht

theorem find?_append_left {α : Type} (l₁ l₂ : List α) (p : α → Bool) (x : α)
    (h : l₁.find? p = some x) : (l₁ ++ l₂).find? p = some x := by
  induction l₁ with
  | nil => simp [List.find?] at h
  | cons a t ih =>
    rw [List.cons_append]
    cases ha : p a with
    | true =>
      rw [List.find?_cons_of_pos _ ha] at h ⊢
      exact h
    | false =>
      rw [List.find?_cons_of_neg _ (by simp [ha])] at h ⊢
      exact ih h

theorem find?_append_right {α : Type} (l₁ l₂ : List α) (p : α → Bool)
    (h : l₁.find? p = none) : (l₁ ++ l₂).find? p = l₂.find? p := by
  induction l₁ with
  | nil => simp
  | cons a t ih =>
    rw [List.cons_append]
    cases ha : p a with
    | true =>
      rw [List.find?_cons_of_pos _ ha] at h
      exact Option.noConfusion h
    | false =>
      rw [List.find?_cons_of_neg _ (by simp [ha])] at h ⊢
      exact ih h

/-- C9 (amended).  `Broker.Subscribe` on an id that already has a live
subscription allocates a fresh channel, re-points the subscription map at
it, and leaves the prior subscription's channel exactly as it was — in
particular it does NOT close it. -/
theorem C9_amended_replace_without_close (b : Broker) (id : String) (p : Nat) (ch : Chan)
    (_hsub : mapGet b.subs id = some p)
    (hch : b.chan p = some ch)
    (hfresh : b.chan b.nextCh = none) :
    (b.subscribe id).1 = b.nextCh ∧
    mapGet (b.subscribe id).2.subs id = some b.nextCh ∧
    (b.subscribe id).2.chan p = some ch ∧
    (b.subscribe id).2.chan b.nextCh = some { buf := [], closed := false } := by
  have hpne : p ≠ b.nextCh := by
    intro h
    rw [h, hfresh] at hch
    exact Option.noConfusion hch
  refine ⟨rfl, ?_, ?_, ?_⟩
  · exact mapGet_mapPut b.subs id b.nextCh
  · obtain ⟨q, hq, hq2⟩ : ∃ q, b.chans.find? (fun r => r.1 = p) = some q ∧ q.2 = ch := by
      unfold Broker.chan at hch
      cases hf : b.chans.find? (fun r => r.1 = p) with
      | none => rw [hf] at hch; simp at hch
      | some q =>
        rw [hf] at hch
        exact ⟨q, rfl, by simpa using hch⟩
    unfold Broker.chan Broker.subscribe
    rw [find?_append_left _ _ _ _ hq]
    simp [hq2]
  · have hnone : b.chans.find? (fun r => r.1 = b.nextCh) = none := by
      unfold Broker.chan at hfresh
      cases hf : b.chans.find? (fun r => r.1 = b.nextCh) with
      | none => rfl
      | some q => rw [hf] at hfresh; simp at hfresh
    unfold Broker.chan Broker.subscribe
    rw [find?_append_right _ _ _ hnone]
    simp [List.find?]

/-- C9 witness.  The amended theorem applied to the concrete broker
that already holds a subscription for `a`. -/
theorem C9_amended_witness :
    (c9b1.subscribe "a").1 = 1 ∧
    mapGet (c9b1.subscribe "a").2.subs "a" = some 1 ∧
    (c9b1.subscribe "a").2.chan 0 = some { buf := [], closed := false } ∧
    (c9b1.subscribe "a").2.chan 1 = some { buf := [], closed := false } :=
  C9_amended_replace_without_close c9b1 "a" 0 { buf := [], closed := false }
    (by decide) (by decide) (by decide)

/-! ## C8 (amended) — the mirror is suppressed when the re-fetch fails -/

/-- C8 (amended).  The log bridge attempts the node re-fetch for EVERY
polled event, DELETED ones included; when the re-fetch fails (as it does
for a DELETED event, whose record is gone) no mirror event is published,
while the cursor still advances to the event's id. -/
theorem C8_amended_failed_refetch_suppresses_mirror (db : RDB) (bk : Broker)
    (l : Store.LastID) (ev : StoreEvent) (e : StoreErr)
    (h : Store.GetNode db ev.nodeId = .error e) :
    NodeService.pollHandleEvent db (bk, l) ev = (bk, .seq ev.id) := by
  unfold NodeService.pollHandleEvent
  rw [h]

/-- C8 witness.  The amended theorem applied to the DELETED event that
the first poll returns after `n1` was deleted. -/
theorem C8_amended_witness :
    NodeService.pollHandleEvent dbDel (bkW, NodeService.watchInitialLastID)
      { id := 2, eventType := .deleted, nodeId := "n1", changedFields := [], ts := 3 }
      = (bkW, .seq 2) :=
  C8_amended_failed_refetch_suppresses_mirror dbDel bkW NodeService.watchInitialLastID
    { id := 2, eventType := .deleted, nodeId := "n1", changedFields := [], ts := 3 }
    .notFound (by decide)

/-! ## C4 (amended) — idempotent UpdateStatus: log vs broker -/

/-- C4 (amended).  An `UpdateStatus` to the node's current status
succeeds, writes NOTHING to the store (in particular it appends no event to
the durable log; the `last_seen` bump exists only on the returned node) —
but the service still publishes an UPDATED event with
`changed_fields = ["status"]` to the broker, so connected watchers DO
receive a new live event. -/
theorem C4_amended_no_log_event_but_broker_publish (db : RDB) (bk : Broker)
    (id : String) (st : NodeStatus) (now : Nat) (n : Node)
    (hid : id ≠ "") (hst : st ≠ .unspecified)
    (hget : Store.GetNode db id = .ok n) (hcur : n.status = st) :
    NodeService.UpdateStatus db bk id st now =
      (.ok { n with status := st, lastSeen := some now }, db,
       bk.publish { eventType := .updated,
                    node := { n with status := st, lastSeen := some now },
                    changedFields := ["status"] }) := by
  unfold NodeService.UpdateStatus Store.UpdateStatus
  rw [if_neg hid, if_neg hst, hget]
  simp [hcur]

/-- C4 witness.  The amended theorem applied to `n1` (status UP) and an
`UpdateStatus` to UP with watcher `w` connected. -/
theorem C4_amended_witness :
    NodeService.UpdateStatus dbA bkW "n1" .up 2 =
      (.ok { nodeA1 with status := .up, lastSeen := some 2 }, dbA,
       bkW.publish { eventType := .updated,
                     node := { nodeA1 with status := .up, lastSeen := some 2 },
                     changedFields := ["status"] }) :=
  C4_amended_no_log_event_but_broker_publish dbA bkW "n1" .up 2 nodeA1
    (by decide) (by decide) (by decide) (by decide)

/-! ## C1 (amended) — duplicate create: INTERNAL, and no side effects -/

/-- C1 (amended).  When the `(type, name)` uniqueness key already holds
a (nonempty) id, a valid `CreateNode` request for that `(type, name)` fails
— with status INTERNAL wrapping the store's collision message, because the
service maps every store error to `codes.Internal` — and has no side
effects at all: the database and the broker are returned unchanged, so the
existing node's record, id and index memberships are untouched. -/
theorem C1_amended_collision_internal_no_side_effects (db : RDB) (bk : Broker)
    (n : Node) (fid : String) (now : Nat) (eid : String)
    (hname : n.name ≠ "") (htype : n.type ≠ .unspecified)
    (hkey : db (.byname n.type n.name) = some (.str eid)) (heid : eid ≠ "") :
    NodeService.CreateNode db bk (some n) fid now =
      (.error (.internal,
        "node with name " ++ n.name ++ " of type " ++ n.type.goString ++ " already exists"),
       db, bk) := by
  simp [NodeService.CreateNode, Store.CreateNode, getStr, hkey, hname, htype, heid,
    StoreErr.msg]

/-- C1 witness.  The amended theorem applied to a second create of
`reqUpA` against `dbA`. -/
theorem C1_amended_witness :
    NodeService.CreateNode dbA Broker.new (some reqUpA) "n3" 5 =
      (.error (.internal,
        "node with name " ++ "a" ++ " of type " ++ NodeType.vm.goString ++ " already exists"),
       dbA, Broker.new) :=
  C1_amended_collision_internal_no_side_effects dbA Broker.new reqUpA "n3" 5 "n1"
    (by decide) (by decide) (by decide) (by decide)

/-! ## C3 (amended) — the initial watch cursor -/

theorem le_foldl_max (l : List StoreEvent) (a : Nat) :
    a ≤ l.foldl (fun acc e => Nat.max acc e.id) a := by
  induction l generalizing a with
  | nil => exact Nat.le_refl a
  | cons e t ih => exact Nat.le_trans (Nat.le_max_left a e.id) (ih (Nat.max a e.id))

theorem mem_le_foldl_max (l : List StoreEvent) (e : StoreEvent) (a : Nat)
    (he : e ∈ l) : e.id ≤ l.foldl (fun acc x => Nat.max acc x.id) a := by
  induction l generalizing a with
  | nil => cases he
  | cons x t ih =>

    cases he with
    | head =>
      exact Nat.le_trans (Nat.le_max_right a e.id) (le_foldl_max t (Nat.max a e.id))
    | tail _ ht => exact ih (Nat.max a x.id) ht

/-- No stream entry has an id above `lastStreamId`. -/
theorem mem_le_lastStreamId (l : List StoreEvent) (e : StoreEvent) (he : e ∈ l) :
    e.id ≤ lastStreamId l :=
  mem_le_foldl_max l e 0 he

/-- C3 (amended).  `WatchEvents` initializes its log-tail cursor to
`"0"` — the very beginning of the durable log, not the end — so the first
polls return the earliest (up to 100) events of the entire log, events
appended long before the subscription started included.  The store does
support an end cursor: reading from `"$"` (to which only the empty cursor
string is mapped) returns no pre-existing event — but `WatchEvents` does
not use it. -/
theorem C3_amended_cursor_starts_at_zero :
    NodeService.watchInitialLastID = Store.LastID.seq 0 ∧
    (∀ entries : List StoreEvent,
      Store.GetEventStream (setk dbEmpty .eventsStream (some (.stream entries)))
          NodeService.watchInitialLastID
        = .ok ((entries.filter fun e => 0 < e.id).take 100)) ∧
    (∀ entries : List StoreEvent,
      Store.GetEventStream (setk dbEmpty .eventsStream (some (.stream entries)))
          .dollar
        = .ok []) ∧
    (∀ entries : List StoreEvent,
      Store.GetEventStream (setk dbEmpty .eventsStream (some (.stream entries)))
          .empty
        = Store.GetEventStream (setk dbEmpty .eventsStream (some (.stream entries)))
            .dollar) := by
  refine ⟨rfl, fun entries => ?_, fun entries => ?_, fun entries => rfl⟩
  · rfl
  · have hnil : (entries.filter fun e => lastStreamId entries < e.id) = [] := by
      rw [List.filter_eq_nil_iff]
      intro e he
      have := mem_le_lastStreamId entries e he
      simp only [decide_eq_true_eq]
      omega
    simp [Store.GetEventStream, asStream, setk, Store.resolveLastID, hnil]

/-! ## C6 — the auth gate -/

theorem hasPfx_append (pre rest : String) : hasPfx (pre ++ rest) pre = true := by
  unfold hasPfx
  rw [List.isPrefixOf_iff_prefix]
  show pre.data <+: (pre ++ rest).data
  have : (pre ++ rest).data = pre.data ++ rest.data := rfl
  rw [this]
  exact List.prefix_append pre.data rest.data

theorem trimPfx_append (pre rest : String) : trimPfx (pre ++ rest) pre = rest := by
  unfold trimPfx
  rw [if_pos (hasPfx_append pre rest)]
  have hdata : (pre ++ rest).data = pre.data ++ rest.data := rfl
  have : ((pre ++ rest).data.drop pre.data.length) = rest.data := by
    rw [hdata]
    exact List.drop_left pre.data rest.data
  rw [this]

/-- A header is the exact bearer form iff it has the prefix and trims to
the token. -/
theorem bearer_iff (v tok : String) :
    (hasPfx v "Bearer " = true ∧ trimPfx v "Bearer " = tok) ↔ v = "Bearer " ++ tok := by
  constructor
  · rintro ⟨h1, h2⟩
    unfold hasPfx at h1
    rw [List.isPrefixOf_iff_prefix] at h1
    obtain ⟨t, ht⟩ := h1
    unfold trimPfx at h2
    rw [if_pos (by unfold hasPfx; rw [List.isPrefixOf_iff_prefix]; exact ⟨t, ht⟩)] at h2
    have hdrop : v.data.drop ("Bearer ".data.length) = t := by
      rw [← ht]
      exact List.drop_left "Bearer ".data t
    rw [hdrop] at h2
    have hv : v = { data := v.data } := rfl
    rw [hv, ← ht, ← h2]
    rfl
  · rintro rfl
    exact ⟨hasPfx_append _ _, trimPfx_append _ _⟩

/-- C6.  The auth gate, characterized method by method and case by
case: a non-mutating method (in particular the three read methods) invokes
the handler unconditionally with the request untouched; a mutating method
yields UNAUTHENTICATED when the metadata is missing, UNAUTHENTICATED when
the authorization header is absent or not `Bearer `-prefixed,
PERMISSION_DENIED when the header is bearer-prefixed but not exactly
`"Bearer " ++ token` for the configured admin token, and invokes the
handler with context and request unchanged when it is exactly that string.
The streaming interceptor passes `WatchEvents` through unconditionally. -/
theorem C6_auth_gate_characterization {Req Res HRes : Type} (tok method : String)
    (md : Option MD) (req : Req) (handler : Option MD → Req → Res)
    (shandler : Option MD → HRes) :
    (UnaryAuthInterceptor tok method md req handler =
      if method ∈ mutatingMethods then
        match md with
        | none => .error (.unauthenticated, "missing metadata")
        | some m =>
          match mdGet m "authorization" with
          | [] => .error (.unauthenticated, "missing authorization header")
          | v :: _ =>
            if v = "Bearer " ++ tok then .ok (handler md req)
            else if hasPfx v "Bearer " then .error (.permissionDenied, "invalid token")
            else .error (.unauthenticated, "invalid authorization header format")
      else .ok (handler md req)) ∧
    "/node.v1.NodeService/CreateNode" ∈ mutatingMethods ∧
    "/node.v1.NodeService/UpdateNode" ∈ mutatingMethods ∧
    "/node.v1.NodeService/UpdateStatus" ∈ mutatingMethods ∧
    "/node.v1.NodeService/DeleteNode" ∈ mutatingMethods ∧
    "/node.v1.NodeService/GetNode" ∉ mutatingMethods ∧
    "/node.v1.NodeService/ListNodes" ∉ mutatingMethods ∧
    "/node.v1.NodeService/WatchEvents" ∉ mutatingMethods ∧
    StreamAuthInterceptor tok "/node.v1.NodeService/WatchEvents" md shandler
      = .ok (shandler md) := by
  refine ⟨?_, by decide, by decide, by decide, by decide, by decide, by decide, by decide, ?_⟩
  · unfold UnaryAuthInterceptor
    by_cases hm : method ∈ mutatingMethods
    · rw [if_pos hm, if_pos hm]
      unfold validateToken
      cases md with
      | none => rfl
      | some m =>
        cases hauth : mdGet m "authorization" with
        | nil => simp [hauth]
        | cons v vs =>
          by_cases hv : v = "Bearer " ++ tok
          · subst hv
            simp [hauth, hasPfx_append, trimPfx_append]
          · by_cases hp : hasPfx v "Bearer " = true
            · have hne : trimPfx v "Bearer " ≠ tok := fun he =>
                hv ((bearer_iff v tok).mp ⟨hp, he⟩)
              simp [hauth, hp, hne, hv]
            · simp [hauth, hp, hv]
    · rw [if_neg hm, if_neg hm]
  · unfold StreamAuthInterceptor
    rw [if_neg (by decide)]

/-! ## C5 (amended) — CreateNode stores the status verbatim -/

theorem asSet_ite (c : Prop) [inst : Decidable c] (x y : Option RValue) :
    asSet (if c then x else y) = if c then asSet x else asSet y :=
  apply_ite asSet c x y

theorem ite_some_some {α : Type} (c : Prop) [inst : Decidable c] (a b : α) :
    (if c then some a else some b) = some (if c then a else b) :=
  (apply_ite some c a b).symm

/-- C5 (amended).  A `CreateNode` whose node carries the unspecified
status sentinel (no status set) succeeds on a fresh `(type, name)` — but no
defaulting to UNKNOWN happens anywhere: the returned node and the stored
record both carry the unspecified sentinel, which is distinct from
UNKNOWN. -/
theorem C5_amended_status_not_defaulted (db : RDB) (bk : Broker) (t : NodeType)
    (nm fid mdj : String) (lb : List (String × String)) (now : Nat)
    (la lt ls : List String) (es : List StoreEvent)
    (hnm : nm ≠ "") (ht : t ≠ .unspecified)
    (hby : db (.byname t nm) = none)
    (hnode : db (.node fid) = none)
    (hall : asSet (db .all) = some la)
    (htyp : asSet (db (.typ t)) = some lt)
    (hstat : asSet (db (.status .unspecified)) = some ls)
    (hstr : asStream (db .eventsStream) = some es) :
    (NodeService.CreateNode db bk
        (some { id := "", type := t, name := nm, status := .unspecified,
                labels := lb, metadataJson := mdj, lastSeen := none }) fid now).1
      = .ok { id := fid, type := t, name := nm, status := .unspecified,
              labels := lb, metadataJson := mdj, lastSeen := some now } ∧
    (NodeService.CreateNode db bk
        (some { id := "", type := t, name := nm, status := .unspecified,
                labels := lb, metadataJson := mdj, lastSeen := none }) fid now).2.1
        (.node fid)
      = some (.hash { id := fid, type := t, name := nm, status := .unspecified,
                      lastSeen := now, labelsJson := lb, metadataJson := mdj }) ∧
    NodeStatus.unspecified ≠ NodeStatus.unknown := by
  refine ⟨?_, ?_, by decide⟩ <;>
    simp [NodeService.CreateNode, Store.CreateNode, Store.saveNode, Store.appendEvent,
      runPipe, applyCmd, xadd, getStr, Node.toHash, hby, hnm, ht, hnode, hall, htyp,
      hstat, hstr, setk]

/-- C5 witness.  The amended theorem applied to scenario S1 on the
empty store. -/
theorem C5_amended_witness :
    (NodeService.CreateNode dbEmpty Broker.new (some reqWeb01) "I1" 5).1
      = .ok { id := "I1", type := .vm, name := "web-01", status := .unspecified,
              labels := [], metadataJson := "", lastSeen := some 5 } ∧
    (NodeService.CreateNode dbEmpty Broker.new (some reqWeb01) "I1" 5).2.1 (.node "I1")
      = some (.hash { id := "I1", type := .vm, name := "web-01", status := .unspecified,
                      lastSeen := 5, labelsJson := [], metadataJson := "" }) ∧
    NodeStatus.unspecified ≠ NodeStatus.unknown :=
  C5_amended_status_not_defaulted dbEmpty Broker.new .vm "web-01" "I1" "" [] 5 [] [] [] []
    (by decide) (by decide) (by decide) (by decide) (by decide) (by decide) (by decide)
    (by decide)

/-! ## C10 — UpdateNode has no uniqueness check -/

theorem asSet_none : asSet none = some [] := rfl

theorem asSet_set (l : List String) : asSet (some (.set l)) = some l := rfl

/-- C10.  `UpdateNode` performs no `(type, name)` uniqueness check:
with two distinct nodes A (record `hA`, key `idA`) and B (record `hB`, key
`idB`) in primary storage, an update that sets B's `(type, name)` to A's
succeeds (it can only fail NOT_FOUND or on a storage error, never with a
collision error), overwrites the `node:byname:{type}:{name}` key to point
at B — and afterwards BOTH records are still in primary storage with the
same `(type, name)`: A's record is untouched and B's record now carries
A's type and name. -/
theorem C10_update_node_no_uniqueness_check (db : RDB) (bk : Broker)
    (idA idB : String) (hA hB : NodeHash) (st : NodeStatus)
    (lb : List (String × String)) (mdj : String) (ls0 : Option Nat) (now : Nat)
    (la ltB lsB lt1 ls1 : List String) (es : List StoreEvent)
    (hidB : idB ≠ "")
    (hne : idA ≠ idB)
    (hdbA : db (.node idA) = some (.hash hA))
    (hdbB : db (.node idB) = some (.hash hB))
    (hall : asSet (db .all) = some la)
    (htypB : asSet (db (.typ hB.type)) = some ltB)
    (hstatB : asSet (db (.status hB.status)) = some lsB)
    (htypA : asSet (db (.typ hA.type)) = some lt1)
    (hstatN : asSet (db (.status st)) = some ls1)
    (hstr : asStream (db .eventsStream) = some es) :
    (NodeService.UpdateNode db bk
        (some { id := idB, type := hA.type, name := hA.name, status := st,
                labels := lb, metadataJson := mdj, lastSeen := ls0 }) now).1
      = .ok { id := idB, type := hA.type, name := hA.name, status := st,
              labels := lb, metadataJson := mdj, lastSeen := some now } ∧
    (NodeService.UpdateNode db bk
        (some { id := idB, type := hA.type, name := hA.name, status := st,
                labels := lb, metadataJson := mdj, lastSeen := ls0 }) now).2.1
        (.byname hA.type hA.name)
      = some (.str idB) ∧
    (NodeService.UpdateNode db bk
        (some { id := idB, type := hA.type, name := hA.name, status := st,
                labels := lb, metadataJson := mdj, lastSeen := ls0 }) now).2.1
        (.node idA)
      = some (.hash hA) ∧
    (NodeService.UpdateNode db bk
        (some { id := idB, type := hA.type, name := hA.name, status := st,
                labels := lb, metadataJson := mdj, lastSeen := ls0 }) now).2.1
        (.node idB)
      = some (.hash { id := idB, type := hA.type, name := hA.name, status := st,
                      lastSeen := now, labelsJson := lb, metadataJson := mdj }) := by
  by_cases h1 : hA.type = hB.type <;> by_cases h2 : st = hB.status <;>
    refine ⟨?_, ?_, ?_, ?_⟩ <;>
      simp [NodeService.UpdateNode, Store.UpdateNode, Store.GetNode, Store.saveNode,
        Store.deleteIndexes, Store.appendEvent, Store.getChangedFields, nodeFromHash,
        runPipe, applyCmd, xadd, Node.toHash, setk, asSet_ite, ite_some_some,
        asSet_none, asSet_set, hidB, hne, hdbA, hdbB, hall, htypB, hstatB, htypA,
        hstatN, hstr, h1, h2]

/-- C10 witness.  The theorem applied to `dbAB` (two VM nodes `a` and
`b`): renaming `n2` to `a` succeeds and leaves both records stored with
`(VM, a)`. -/
theorem C10_witness :
    (NodeService.UpdateNode dbAB Broker.new
        (some { id := "n2", type := .vm, name := "a", status := .up,
                labels := [], metadataJson := "", lastSeen := none }) 7).1
      = .ok { id := "n2", type := .vm, name := "a", status := .up,
              labels := [], metadataJson := "", lastSeen := some 7 } ∧
    (NodeService.UpdateNode dbAB Broker.new
        (some { id := "n2", type := .vm, name := "a", status := .up,
                labels := [], metadataJson := "", lastSeen := none }) 7).2.1
        (.byname .vm "a")
      = some (.str "n2") ∧
    (NodeService.UpdateNode dbAB Broker.new
        (some { id := "n2", type := .vm, name := "a", status := .up,
                labels := [], metadataJson := "", lastSeen := none }) 7).2.1
        (.node "n1")
      = some (.hash { id := "n1", type := .vm, name := "a", status := .up,
                      lastSeen := 0, labelsJson := [], metadataJson := "" }) ∧
    (NodeService.UpdateNode dbAB Broker.new
        (some { id := "n2", type := .vm, name := "a", status := .up,
                labels := [], metadataJson := "", lastSeen := none }) 7).2.1
        (.node "n2")
      = some (.hash { id := "n2", type := .vm, name := "a", status := .up,
                      lastSeen := 7, labelsJson := [], metadataJson := "" }) :=
  C10_update_node_no_uniqueness_check dbAB Broker.new "n1" "n2"
    { id := "n1", type := .vm, name := "a", status := .up, lastSeen := 0,
      labelsJson := [], metadataJson := "" }
    { id := "n2", type := .vm, name := "b", status := .up, lastSeen := 1,
      labelsJson := [], metadataJson := "" }
    .up [] "" none 7 ["n1", "n2"] ["n1", "n2"] ["n1", "n2"] ["n1", "n2"] ["n1", "n2"]
    [{ id := 1, eventType := .created, nodeId := "n1", changedFields := [], ts := 0 },
     { id := 2, eventType := .created, nodeId := "n2", changedFields := [], ts := 1 }]
    (by decide) (by decide) (by decide) (by decide) (by decide) (by decide) (by decide)
    (by decide) (by decide) (by decide)

end Melkior

